import Mathlib

/-!
Shallow embedding of the mach routing core.

Source files embedded here:
  * `src/lib/router.js` — `makeRouter`, the inner dispatch function `router`,
    `router.run`, `router.route`, the per-verb sugar registrars, and
    `makeAccessorsForIndex`.
  * `src/examples/router.js` — `bindAppToNodeServer` (the response
    transmission step: HEAD / no-content handling and the rejection branch).

The repository's `utils.js` is not part of the sources, so the helpers the
router takes from it (`compileRoute`, `defaultApp`, `statusHasContent`) are
modelled from the specification; each such definition carries a doc comment
saying so.  JavaScript objects used as string-keyed tables (`routes`, the
accessors object built by `keys.reduce`, header mappings) are modelled as
association lists with first-key lookup and in-place update, and exceptions
are modelled with `Except`.
-/

/-- The match-result data attached to `request.route`: the capture array
(`utils.slice(match, 0)`, index 0 being the whole match) together with the
named accessors installed on it by `Object.defineProperties`.  Each accessor
entry pairs a segment name with the 0-based key ordinal it was created for
(`makeAccessorsForIndex(index)` reads and writes slot `index + 1`). -/
structure RouteData where
  captures : List String
  accessors : List (String × Nat)
deriving Repr, DecidableEq

/-- The request fields the router reads (`method`, `pathInfo`) and writes
(`route`).  `route = none` models the field being absent before dispatch. -/
structure Request where
  method : String
  pathInfo : String
  route : Option RouteData := none
deriving Repr, DecidableEq

/-- A response: status, header mapping, and body content (modelled as the
string of bytes the content stream would deliver). -/
structure Response where
  status : Nat
  headers : List (String × String)
  content : String
deriving Repr, DecidableEq

/-- An app: `request => eventual response`; a rejected promise / thrown
error is modelled as `Except.error` with the error message. -/
abbrev App := Request → Except String Response

/-- A compiled matcher (a RegExp in the source): given a path it either
fails or yields the capture array, index 0 being the whole match. -/
structure Matcher where
  exec : String → Option (List String)

/-- A registered route: `{ pattern: pattern, app: app, accessors: ... }`. -/
structure Route where
  pattern : Matcher
  app : App
  accessors : List (String × Nat)

/-- A pattern argument to `router.route`: a template string, an
already-compiled matcher (RegExp), or any other value (`Pattern.other`
stands for every argument that is neither a string nor a RegExp). -/
inductive Pattern where
  | str : String → Pattern
  | regexp : Matcher → Pattern
  | other : Pattern

/-- The `methods` argument of `router.route`: a single verb string, an
array of verbs, or omitted (`undefined`). -/
inductive Methods where
  | one : String → Methods
  | many : List String → Methods
  | omitted : Methods

/-- `methods` normalisation at the top of `router.route`: a string becomes
a one-element array, `undefined` defaults to `['ANY']`, an array is kept
as-is (an explicitly empty array stays empty). -/
def normalizeMethods : Methods → List String
  | .one m => [m]
  | .many l => l
  | .omitted => ["ANY"]

/-- `'a'.toUpperCase()` on a single character (ASCII, which covers every
method name the router sees). -/
def upChar (c : Char) : Char :=
  if 'a' ≤ c ∧ c ≤ 'z' then Char.ofNat (c.toNat - 32) else c

/-- JavaScript's `String.prototype.toUpperCase` on ASCII strings. -/
def toUpperCase (s : String) : String :=
  ⟨s.data.map upChar⟩

/-- Splitting a character list at every slash (the separators themselves
are dropped; adjacent separators produce empty pieces, like
`"/a".split("/")` giving `["", "a"]`). -/
def splitCharList : List Char → List (List Char)
  | [] => [[]]
  | c :: cs =>
      if c = '/' then [] :: splitCharList cs
      else
        match splitCharList cs with
        | l :: ls => (c :: l) :: ls
        | [] => [[c]]

/-- A path or template as its slash-separated segments. -/
def splitSlash (s : String) : List String :=
  (splitCharList s.data).map fun l => ⟨l⟩

/-- One segment of a parsed path template: a literal piece or a `:name`
parameter. -/
inductive Seg where
  | lit : String → Seg
  | named : String → Seg
deriving Repr, DecidableEq

/-- A template segment of the form `:name` (with a non-empty name) is a
named parameter; everything else is literal. -/
def parseSeg (s : String) : Seg :=
  match s.data with
  | ':' :: rest@(_ :: _) => Seg.named ⟨rest⟩
  | _ => Seg.lit s

/-- Modelled from the spec: `utils.compileRoute` is not among the sources.
The spec says the compiler walks the template, turning each `:name` segment
into a capturing wildcard that matches one non-empty path segment with no
embedded slash, and matching literal segments verbatim.  We parse by
slash-separated segments. -/
def parseTemplate (t : String) : List Seg :=
  (splitSlash t).map parseSeg

/-- The ordered parameter-name list of a parsed template. -/
def keysOf : List Seg → List String
  | [] => []
  | Seg.lit _ :: segs => keysOf segs
  | Seg.named n :: segs => n :: keysOf segs

/-- Modelled from the spec: segment-by-segment matching of a parsed
template against the slash-split path, yielding the captures of the named
segments in template order.  A named segment captures exactly one non-empty
path segment; literals must be equal verbatim. -/
def matchSegs : List Seg → List String → Option (List String)
  | [], [] => some []
  | Seg.lit l :: segs, p :: ps => if p = l then matchSegs segs ps else none
  | Seg.named _ :: segs, p :: ps =>
      if p = "" then none else (matchSegs segs ps).map fun caps => p :: caps
  | _, _ => none

/-- Modelled from the spec: running a compiled template against a whole
path.  The matcher is anchored at both ends, so on success capture 0 is the
entire path, followed by the named-segment captures in template order. -/
def templateExec (segs : List Seg) (path : String) : Option (List String) :=
  (matchSegs segs (splitSlash path)).map fun caps => path :: caps

/-- Modelled from the spec: `utils.compileRoute(template, keys)` — compiles
a path-template string into a matcher and fills `keys` with the parameter
names in template order.  Returned here as a pair instead of mutating an
array argument. -/
def compileRoute (template : String) : Matcher × List String :=
  let segs := parseTemplate template
  (⟨templateExec segs⟩, keysOf segs)

/-- Modelled from the spec: `utils.defaultApp`, the well-known "not found"
fallback — a deterministic 404 response. -/
def defaultApp : App := fun request =>
  .ok { status := 404
        headers := [("Content-Type", "text/plain")]
        content := "Not Found: " ++ request.method ++ " " ++ request.pathInfo }

/-- The accessors object built by `keys.reduce(...)`: each key is bound to
`makeAccessorsForIndex(index)` where `index` is the key's 0-based ordinal.
`accessorsFrom n keys` lists the bindings starting at ordinal `n`. -/
def accessorsFrom (n : Nat) : List String → List (String × Nat)
  | [] => []
  | k :: rest => (k, n) :: accessorsFrom (n + 1) rest

/-- The accessor table for a key list (ordinals starting at 0). -/
def accessorsOfKeys (keys : List String) : List (String × Nat) :=
  accessorsFrom 0 keys

/-- Index lookup in an accessor table.  The table was built by a `reduce`
into a plain object, so a later binding of the same name shadows an earlier
one: the lookup prefers the rightmost entry. -/
def accessorIndex : List (String × Nat) → String → Option Nat
  | [], _ => none
  | (k, i) :: rest, name =>
      match accessorIndex rest name with
      | some j => some j
      | none => if k = name then some i else none

/-- Reading `routeData.<name>` through the accessor of
`makeAccessorsForIndex`: `get: function () { return this[index + 1] }`. -/
def RouteData.getNamed (rd : RouteData) (name : String) : Option String :=
  match accessorIndex rd.accessors name with
  | some i => rd.captures.get? (i + 1)
  | none => none

/-- Writing `routeData.<name> = value` through the accessor:
`set: function (value) { this[index + 1] = value }`.  A name with no
accessor leaves the capture array untouched. -/
def RouteData.setNamed (rd : RouteData) (name : String) (v : String) : RouteData :=
  match accessorIndex rd.accessors name with
  | some i => { rd with captures := rd.captures.set (i + 1) v }
  | none => rd

/-- The router's route table `routes`: a string-keyed object mapping a
method name to its ordered bucket of routes. -/
abbrev RouteTable := List (String × List Route)

/-- `routes[method]` — object-property lookup. -/
def getBucket : RouteTable → String → Option (List Route)
  | [], _ => none
  | (k, b) :: rest, m => if k = m then some b else getBucket rest m

/-- `routes[method].push(route)` when the bucket exists, otherwise
`routes[method] = [route]`. -/
def pushBucket : RouteTable → String → Route → RouteTable
  | [], m, r => [(m, [r])]
  | (k, b) :: rest, m, r =>
      if k = m then (k, b ++ [r]) :: rest else (k, b) :: pushBucket rest m r

/-- The state closed over by a router made by `makeRouter`: the route table
and the current default app. -/
structure RouterState where
  routes : RouteTable
  defaultApp : App

/-- `makeRouter(defaultApp)`: `defaultApp = defaultApp || utils.defaultApp`,
and an initially empty route table. -/
def makeRouter (d : Option App) : RouterState :=
  { routes := [], defaultApp := d.getD defaultApp }

/-- `router.run(app)`: sets the given app as the default for this router. -/
def routerRun (s : RouterState) (app : App) : RouterState :=
  { s with defaultApp := app }

/-- `router.route(pattern, app, methods)`: normalises `methods`, compiles a
string pattern (collecting its keys), throws unless the pattern is now a
RegExp, builds the route with its accessors, and appends it to every
applicable method bucket (method names upper-cased). -/
def routerRoute (s : RouterState) (pattern : Pattern) (app : App)
    (methods : Methods) : Except String RouterState :=
  let ms := normalizeMethods methods
  let compiled : Pattern × List String :=
    match pattern with
    | .str t => (.regexp (compileRoute t).1, (compileRoute t).2)
    | p => (p, [])
  match compiled with
  | (.regexp m, keys) =>
      let route : Route := { pattern := m, app := app, accessors := accessorsOfKeys keys }
      .ok { s with
            routes := ms.foldl (fun rs meth => pushBucket rs (toUpperCase meth) route) s.routes }
  | _ => .error "Pattern must be a RegExp"

/-- The combined sequence the dispatch loop walks:
`(routes[method] || []).concat(routes.ANY || [])`. -/
def routesToTry (s : RouterState) (method : String) : List Route :=
  (getBucket s.routes method).getD [] ++ (getBucket s.routes "ANY").getD []

/-- The dispatch loop body: try each route's pattern against the path in
order, returning the first route that matches together with its match. -/
def tryRoutes : List Route → String → Option (Route × List String)
  | [], _ => none
  | r :: rest, path =>
      match r.pattern.exec path with
      | some m => some (r, m)
      | none => tryRoutes rest path

/-- The observable outcome of the dispatch function `router(request)` up to
the final call: which app the request is delegated to, and the request as
passed to it (with `request.route` set on a successful match, untouched
otherwise). -/
def routerSelect (s : RouterState) (req : Request) : App × Request :=
  match tryRoutes (routesToTry s req.method) req.pathInfo with
  | some (r, m) =>
      (r.app, { req with route := some { captures := m, accessors := r.accessors } })
  | none => (s.defaultApp, req)

/-- The full dispatch function `router(request)`: select the app and call
it (`request.call(route.app)` / `request.call(defaultApp)`). -/
def router (s : RouterState) (request : Request) : Except String Response :=
  (routerSelect s request).1 (routerSelect s request).2

/-- Sugar registrar `router.get` — `methodVerbs.get = ['GET', 'HEAD']`. -/
def routerGet (s : RouterState) (pattern : Pattern) (app : App) :
    Except String RouterState :=
  routerRoute s pattern app (.many ["GET", "HEAD"])

/-- Sugar registrar `router.post` — `methodVerbs.post = 'POST'`. -/
def routerPost (s : RouterState) (pattern : Pattern) (app : App) :
    Except String RouterState :=
  routerRoute s pattern app (.one "POST")

/-- Sugar registrar `router.put` — `methodVerbs.put = 'PUT'`. -/
def routerPut (s : RouterState) (pattern : Pattern) (app : App) :
    Except String RouterState :=
  routerRoute s pattern app (.one "PUT")

/-- Sugar registrar `router.delete` — `methodVerbs.delete = 'DELETE'`. -/
def routerDelete (s : RouterState) (pattern : Pattern) (app : App) :
    Except String RouterState :=
  routerRoute s pattern app (.one "DELETE")

/-- Sugar registrar `router.head` — `methodVerbs.head = 'HEAD'`. -/
def routerHead (s : RouterState) (pattern : Pattern) (app : App) :
    Except String RouterState :=
  routerRoute s pattern app (.one "HEAD")

/-- Sugar registrar `router.options` — `methodVerbs.options = 'OPTIONS'`. -/
def routerOptions (s : RouterState) (pattern : Pattern) (app : App) :
    Except String RouterState :=
  routerRoute s pattern app (.one "OPTIONS")

/-- Modelled from the spec: `utils.statusHasContent` is not among the
sources; the spec names 204 and 304 (and HTTP defines the 1xx range) as
statuses that carry no body. -/
def statusHasContent (status : Nat) : Bool :=
  ¬ (status = 204 ∨ status = 304 ∨ (100 ≤ status ∧ status < 200))

/-- What the server writes to the wire for one response: status line,
headers as passed to `writeHead`, and the transmitted body. -/
structure TransmitResult where
  status : Nat
  headers : List (String × String)
  body : String
deriving Repr, DecidableEq

/-- `response.headers['Content-Length'] = 0` — object-property update on a
header mapping. -/
def setHeader (hs : List (String × String)) (k v : String) : List (String × String) :=
  match hs with
  | [] => [(k, v)]
  | (k2, v2) :: rest => if k2 = k then (k2, v) :: rest else (k2, v2) :: setHeader rest k v

/-- Header lookup, for stating what reaches the wire. -/
def getHeader : List (String × String) → String → Option String
  | [], _ => none
  | (k2, v) :: rest, k => if k2 = k then some v else getHeader rest k

/-- The fulfilled branch of `bindAppToNodeServer`: compute `isHead` and
`isEmpty`, set `Content-Length` to 0 when the response is empty but the
request is not HEAD (the code comment says this preserves the header on
HEAD requests), write the head, and send the content only when the
response is not empty. -/
def transmit (method : String) (resp : Response) : TransmitResult :=
  let isHead := method = "HEAD"
  let isEmpty := isHead ∨ statusHasContent resp.status = false
  let headers :=
    if isEmpty ∧ ¬ isHead then setHeader resp.headers "Content-Length" "0"
    else resp.headers
  { status := resp.status
    headers := headers
    body := if isEmpty then "" else resp.content }

/-- `bindAppToNodeServer`'s per-request behaviour: call the app; on a
fulfilled response transmit it, on a rejection write a plain 500
"Internal Server Error" response. -/
def bindAppToNodeServer (app : App) (request : Request) : TransmitResult :=
  match app request with
  | .ok response => transmit request.method response
  | .error _ =>
      { status := 500
        headers := [("Content-Type", "text/plain")]
        body := "Internal Server Error" }

/-! ### Helper lemmas about the route table and the dispatch loop -/

theorem getBucket_pushBucket_self (rs : RouteTable) (m : String) (r : Route) :
    getBucket (pushBucket rs m r) m = some ((getBucket rs m).getD [] ++ [r]) := by
  induction rs with
  | nil => simp [pushBucket, getBucket]
  | cons hd tl ih =>
    obtain ⟨k, b⟩ := hd
    by_cases h : k = m
    · simp [pushBucket, getBucket, h]
    · simp [pushBucket, getBucket, h, ih]

theorem getBucket_pushBucket_ne (rs : RouteTable) (m mo : String) (r : Route)
    (h : mo ≠ m) : getBucket (pushBucket rs m r) mo = getBucket rs mo := by
  have hne : m ≠ mo := fun hh => h hh.symm
  induction rs with
  | nil => simp [pushBucket, getBucket, hne]
  | cons hd tl ih =>
    obtain ⟨k, b⟩ := hd
    by_cases hk : k = m
    · subst hk
      simp [pushBucket, getBucket, hne]
    · simp [pushBucket, getBucket, hk, ih]

theorem tryRoutes_cons_match (r : Route) (rest : List Route) (path : String)
    (c : List String) (h : r.pattern.exec path = some c) :
    tryRoutes (r :: rest) path = some (r, c) := by
  simp [tryRoutes, h]

theorem tryRoutes_cons_nomatch (r : Route) (rest : List Route) (path : String)
    (h : r.pattern.exec path = none) :
    tryRoutes (r :: rest) path = tryRoutes rest path := by
  simp [tryRoutes, h]

theorem tryRoutes_mem (l : List Route) (path : String) (r : Route)
    (c : List String) (h : tryRoutes l path = some (r, c)) : r ∈ l := by
  induction l with
  | nil => simp [tryRoutes] at h
  | cons hd tl ih =>
    rw [tryRoutes] at h
    cases hm : hd.pattern.exec path with
    | some m =>
      rw [hm] at h
      simp only [Option.some.injEq, Prod.mk.injEq] at h
      exact h.1 ▸ List.mem_cons_self _ _
    | none =>
      rw [hm] at h
      exact List.mem_cons_of_mem _ (ih h)

theorem tryRoutes_eq_none (l : List Route) (path : String)
    (h : ∀ r ∈ l, r.pattern.exec path = none) : tryRoutes l path = none := by
  induction l with
  | nil => rfl
  | cons hd tl ih =>
    rw [tryRoutes, h hd (List.mem_cons_self _ _)]
    exact ih fun r hr => h r (List.mem_cons_of_mem _ hr)

/-! ### Helper lemmas about compiled templates and accessors -/

theorem matchSegs_length (segs : List Seg) :
    ∀ ps caps, matchSegs segs ps = some caps → caps.length = (keysOf segs).length := by
  induction segs with
  | nil =>
    intro ps caps h
    cases ps with
    | nil => simp [matchSegs] at h; simp [← h, keysOf]
    | cons p ps => simp [matchSegs] at h
  | cons hd tl ih =>
    intro ps caps h
    cases hd with
    | lit l =>
      cases ps with
      | nil => simp [matchSegs] at h
      | cons p ps =>
        rw [matchSegs] at h
        by_cases hp : p = l
        · rw [if_pos hp] at h
          simpa [keysOf] using ih ps caps h
        · rw [if_neg hp] at h; exact absurd h (by simp)
    | named n =>
      cases ps with
      | nil => simp [matchSegs] at h
      | cons p ps =>
        rw [matchSegs] at h
        by_cases hp : p = ""
        · rw [if_pos hp] at h; exact absurd h (by simp)
        · rw [if_neg hp] at h
          cases hrec : matchSegs tl ps with
          | none => rw [hrec] at h; exact absurd h (by simp)
          | some caps2 =>
            rw [hrec] at h
            simp only [Option.map_some', Option.some.injEq] at h
            subst h
            simp [keysOf, ih ps caps2 hrec]

theorem accessorIndex_of_notMem (n : Nat) (keys : List String) (name : String)
    (h : name ∉ keys) : accessorIndex (accessorsFrom n keys) name = none := by
  induction keys generalizing n with
  | nil => rfl
  | cons k rest ih =>
    simp only [List.mem_cons, not_or] at h
    rw [accessorsFrom, accessorIndex, ih (n + 1) h.2, if_neg (fun hk => h.1 hk.symm)]

theorem accessorIndex_of_get (keys : List String) (hnd : keys.Nodup) :
    ∀ (n i : Nat) (h : i < keys.length),
      accessorIndex (accessorsFrom n keys) (keys.get ⟨i, h⟩) = some (n + i) := by
  induction keys with
  | nil => intro n i h; exact absurd h (by simp)
  | cons k rest ih =>
    intro n i h
    rw [List.nodup_cons] at hnd
    cases i with
    | zero =>
      have hk : (k :: rest).get ⟨0, h⟩ = k := rfl
      rw [hk, accessorsFrom, accessorIndex,
        accessorIndex_of_notMem (n + 1) rest k hnd.1]
      simp
    | succ j =>
      have hj : j < rest.length := by simpa using Nat.lt_of_succ_lt_succ h
      have hget : (k :: rest).get ⟨j + 1, h⟩ = rest.get ⟨j, hj⟩ := rfl
      rw [accessorsFrom, accessorIndex, hget, ih hnd.2 (n + 1) j hj]
      exact congrArg some (by omega)

theorem get?_set_self (l : List String) :
    ∀ (i : Nat) (v : String), i < l.length → (l.set i v).get? i = some v := by
  induction l with
  | nil => intro i v h; exact absurd h (by simp)
  | cons x xs ih =>
    intro i v h
    cases i with
    | zero => rfl
    | succ j => exact ih j v (by simpa using Nat.lt_of_succ_lt_succ h)

/-! ### Concrete fixtures used by the closed check theorems -/

/-- A matcher accepting exactly the path `/a`, capturing the whole path. -/
def matchSlashA : Matcher := ⟨fun p => if p = "/a" then some [p] else none⟩

/-- A matcher rejecting every path. -/
def matchNothing : Matcher := ⟨fun _ => none⟩

/-- A leaf app producing a fixed 200 response with the given body. -/
def constApp (body : String) : App :=
  fun _ => .ok { status := 200, headers := [], content := body }

/-- An app whose deferred result always rejects. -/
def boomApp : App := fun _ => .error "boom"

/-! ### C10 -/

/-- C10: for every request for which no registered route's matcher succeeds
on `request.pathInfo`, dispatch delegates to the default app with the
request unchanged; in particular `request.route` is only assigned on a
successful match, so on fallthrough the default app observes whatever value
the field had before dispatch. -/
theorem routerSelect_fallthrough_frame (s : RouterState) (req : Request)
    (h : ∀ r ∈ routesToTry s req.method, r.pattern.exec req.pathInfo = none) :
    routerSelect s req = (s.defaultApp, req) ∧
    (routerSelect s req).2.route = req.route := by
  have hnone := tryRoutes_eq_none _ _ h
  constructor <;> simp [routerSelect, hnone]

/-- The C10 scenario instantiated: one registered route whose matcher
fails, and a request whose `route` field was already set upstream. -/
def frameState : RouterState :=
  { routes := [("GET", [⟨matchNothing, constApp "x", []⟩])], defaultApp := defaultApp }

/-- The request of the C10 scenario. -/
def frameRequest : Request :=
  { method := "GET", pathInfo := "/x", route := some ⟨["pre"], []⟩ }

theorem routerSelect_fallthrough_frame_check :
    routerSelect frameState frameRequest = (frameState.defaultApp, frameRequest) ∧
    (routerSelect frameState frameRequest).2.route = frameRequest.route :=
  routerSelect_fallthrough_frame frameState frameRequest (by
    intro r hr
    simp only [frameState, frameRequest, routesToTry, getBucket] at hr
    simp at hr
    subst hr
    rfl)

/-! ### C4 -/

/-- C4: when no route matches, dispatch delegates to the default app; the
default is the built-in "not found" app unless one was supplied to the
constructor or set through `router.run`, and route registration never
changes it; the built-in default deterministically produces a 404
response. -/
theorem router_default_fallback :
    (∀ (s : RouterState) (req : Request),
        (∀ r ∈ routesToTry s req.method, r.pattern.exec req.pathInfo = none) →
        routerSelect s req = (s.defaultApp, req)) ∧
    (makeRouter none).defaultApp = defaultApp ∧
    (∀ a : App, (makeRouter (some a)).defaultApp = a) ∧
    (∀ (s : RouterState) (a : App), (routerRun s a).defaultApp = a) ∧
    (∀ (s : RouterState) (pat : Pattern) (a : App) (ms : Methods) (s2 : RouterState),
        routerRoute s pat a ms = .ok s2 → s2.defaultApp = s.defaultApp) ∧
    (∀ req : Request, defaultApp req = .ok
        { status := 404, headers := [("Content-Type", "text/plain")],
          content := "Not Found: " ++ req.method ++ " " ++ req.pathInfo }) := by
  refine ⟨?_, rfl, fun a => rfl, fun s a => rfl, ?_, fun req => rfl⟩
  · intro s req h
    simp [routerSelect, tryRoutes_eq_none _ _ h]
  · intro s pat a ms s2 hok
    cases pat with
    | str t => rw [← Except.ok.inj hok]
    | regexp m => rw [← Except.ok.inj hok]
    | other => exact Except.noConfusion hok

theorem router_default_fallback_check :
    routerSelect (makeRouter none) { method := "GET", pathInfo := "/x", route := none } =
      ((makeRouter none).defaultApp, { method := "GET", pathInfo := "/x", route := none }) :=
  router_default_fallback.1 (makeRouter none) _ (by
    intro r hr
    simp [makeRouter, routesToTry, getBucket] at hr)

/-! ### C5 -/

/-- C5: a pattern that is neither a string nor a matcher is rejected with
an error at registration time, while string and matcher patterns always
register successfully — so no pattern-type error is ever deferred to match
time. -/
theorem routerRoute_pattern_type_check (s : RouterState) (a : App) (ms : Methods) :
    routerRoute s Pattern.other a ms = .error "Pattern must be a RegExp" ∧
    (∀ t : String, ∃ s2, routerRoute s (.str t) a ms = .ok s2) ∧
    (∀ m : Matcher, ∃ s2, routerRoute s (.regexp m) a ms = .ok s2) :=
  ⟨rfl, fun t => ⟨_, rfl⟩, fun m => ⟨_, rfl⟩⟩

/-! ### C8 -/

/-- C8: when the app selected by dispatch fails, the failure propagates out
of the dispatch chain unchanged, and the outermost boundary converts any
failed app call into a generic 500 "Internal Server Error" response (it
always produces a response; it never re-raises). -/
theorem handler_failure_to_500 :
    (∀ (s : RouterState) (req : Request) (a : App) (r : Request) (e : String),
        routerSelect s req = (a, r) → a r = .error e → router s req = .error e) ∧
    (∀ (app : App) (req : Request) (e : String), app req = .error e →
        bindAppToNodeServer app req =
          { status := 500, headers := [("Content-Type", "text/plain")],
            body := "Internal Server Error" }) := by
  constructor
  · intro s req a r e hsel herr
    show (routerSelect s req).1 (routerSelect s req).2 = .error e
    rw [hsel]
    exact herr
  · intro app req e h
    unfold bindAppToNodeServer
    rw [h]

theorem handler_failure_to_500_check :
    bindAppToNodeServer boomApp { method := "GET", pathInfo := "/", route := none } =
      { status := 500, headers := [("Content-Type", "text/plain")],
        body := "Internal Server Error" } :=
  handler_failure_to_500.2 boomApp _ "boom" rfl

/-! ### C3 -/

/-- C3 is false as stated: for a non-HEAD response whose status carries no
body the server does not keep the computed `Content-Length` — a 204
response carrying `Content-Length: 42` is transmitted with
`Content-Length: 0`. -/
theorem transmit_204_rewrites_content_length :
    getHeader (transmit "GET"
        { status := 204, headers := [("Content-Length", "42")], content := "hello" }).headers
      "Content-Length" = some "0" ∧
    some "0" ≠ some ("42" : String) := by
  constructor
  · decide
  · decide

/-- C3 (amended): the transmitted body is empty for every HEAD request and
for every status that carries no body; the `Content-Length` header of the
content-bearing response is kept unchanged on HEAD requests, while for
non-HEAD bodiless-status responses it is overwritten with 0. -/
theorem transmit_empty_body_headers (method : String) (resp : Response) :
    ((method = "HEAD" ∨ statusHasContent resp.status = false) →
        (transmit method resp).body = "") ∧
    (method = "HEAD" → (transmit method resp).headers = resp.headers) ∧
    (method ≠ "HEAD" → statusHasContent resp.status = false →
        (transmit method resp).headers = setHeader resp.headers "Content-Length" "0") := by
  have hbody : (transmit method resp).body =
      if method = "HEAD" ∨ statusHasContent resp.status = false then ""
      else resp.content := rfl
  have hheaders : (transmit method resp).headers =
      if (method = "HEAD" ∨ statusHasContent resp.status = false) ∧ ¬ method = "HEAD"
      then setHeader resp.headers "Content-Length" "0"
      else resp.headers := rfl
  refine ⟨fun h => ?_, fun h => ?_, fun h1 h2 => ?_⟩
  · rw [hbody, if_pos h]
  · rw [hheaders, if_neg fun hc => hc.2 h]
  · rw [hheaders, if_pos ⟨Or.inr h2, h1⟩]

theorem transmit_empty_body_headers_check :
    (transmit "HEAD"
        { status := 200, headers := [("Content-Length", "5")], content := "hello" }).body = "" ∧
    (transmit "HEAD"
        { status := 200, headers := [("Content-Length", "5")], content := "hello" }).headers =
      [("Content-Length", "5")] :=
  ⟨(transmit_empty_body_headers "HEAD" _).1 (Or.inl rfl),
   (transmit_empty_body_headers "HEAD" _).2.1 rfl⟩

/-! ### C7 -/

/-- C7: dispatch of a GET request only ever selects a route present in the
GET bucket or the wildcard bucket, and registering a route under the POST
method leaves the GET and wildcard buckets untouched — so a route
registered only under POST is never selected by a GET request. -/
theorem post_route_never_matches_get :
    (∀ (s : RouterState) (req : Request) (r : Route) (caps : List String),
        req.method = "GET" →
        tryRoutes (routesToTry s req.method) req.pathInfo = some (r, caps) →
        r ∈ (getBucket s.routes "GET").getD [] ∨
        r ∈ (getBucket s.routes "ANY").getD []) ∧
    (∀ (s : RouterState) (pat : Pattern) (a : App) (s2 : RouterState),
        routerPost s pat a = .ok s2 →
        getBucket s2.routes "GET" = getBucket s.routes "GET" ∧
        getBucket s2.routes "ANY" = getBucket s.routes "ANY") := by
  constructor
  · intro s req r caps hm hsel
    rw [hm] at hsel
    have := tryRoutes_mem _ _ _ _ hsel
    rw [routesToTry] at this
    exact List.mem_append.mp this
  · intro s pat a s2 hok
    have hGET : ("GET" : String) ≠ toUpperCase "POST" := by decide
    have hANY : ("ANY" : String) ≠ toUpperCase "POST" := by decide
    cases pat with
    | str t =>
      rw [← Except.ok.inj hok]
      exact ⟨getBucket_pushBucket_ne _ _ _ _ hGET, getBucket_pushBucket_ne _ _ _ _ hANY⟩
    | regexp m =>
      rw [← Except.ok.inj hok]
      exact ⟨getBucket_pushBucket_ne _ _ _ _ hGET, getBucket_pushBucket_ne _ _ _ _ hANY⟩
    | other => exact Except.noConfusion hok

/-- The GET bucket of the C7 scenario: one route on `/a`. -/
def getOnlyRoute : Route := ⟨matchSlashA, constApp "A", []⟩

/-- A router whose only route sits in the GET bucket. -/
def getOnlyState : RouterState :=
  { routes := [("GET", [getOnlyRoute])], defaultApp := defaultApp }

theorem post_route_never_matches_get_check :
    getOnlyRoute ∈ (getBucket getOnlyState.routes "GET").getD [] ∨
    getOnlyRoute ∈ (getBucket getOnlyState.routes "ANY").getD [] :=
  post_route_never_matches_get.1 getOnlyState
    { method := "GET", pathInfo := "/a", route := none } getOnlyRoute ["/a"] rfl rfl

/-! ### C9 -/

/-- C9: a pattern supplied as an already-compiled matcher is stored in the
route table unchanged, with an empty key list; a match through such a route
attaches a match result whose named accessors are absent — every named read
yields nothing and every named write leaves the captures untouched — so
only the positional captures of the matcher itself are exposed. -/
theorem regexp_pattern_passthrough
    (m : Matcher) (a : App) (M : String) (req : Request)
    (caps : List String) (s2 : RouterState)
    (hup : toUpperCase M = M)
    (hreg : routerRoute (makeRouter none) (.regexp m) a (.one M) = .ok s2)
    (hm : m.exec req.pathInfo = some caps)
    (hmeth : req.method = M) :
    getBucket s2.routes M = some [⟨m, a, []⟩] ∧
    routerSelect s2 req = (a, { req with route := some ⟨caps, []⟩ }) ∧
    (∀ name, RouteData.getNamed ⟨caps, []⟩ name = none) ∧
    (∀ name v, RouteData.setNamed ⟨caps, []⟩ name v = ⟨caps, []⟩) := by
  have hs2 : s2 = { routes := [(M, [⟨m, a, []⟩])], defaultApp := defaultApp } := by
    have := Except.ok.inj hreg
    rw [← this]
    simp [makeRouter, normalizeMethods, pushBucket, hup, accessorsOfKeys, accessorsFrom]
  subst hs2
  refine ⟨by simp [getBucket], ?_, fun name => rfl, fun name v => rfl⟩
  have htry : tryRoutes (routesToTry
      { routes := [(M, [⟨m, a, []⟩])], defaultApp := defaultApp } req.method)
      req.pathInfo = some (⟨m, a, []⟩, caps) := by
    rw [hmeth]
    by_cases hany : M = "ANY"
    · subst hany
      simp only [routesToTry, getBucket, List.cons_append, List.nil_append, ite_true,
        eq_self_iff_true, Option.getD_some]
      exact tryRoutes_cons_match ⟨m, a, []⟩ _ _ _ hm
    · simp only [routesToTry, getBucket, ite_true, eq_self_iff_true, if_neg hany,
        Option.getD_some, Option.getD_none, List.append_nil]
      exact tryRoutes_cons_match ⟨m, a, []⟩ _ _ _ hm
  simp only [routerSelect, htry]

/-- The C9 route table after registering the raw matcher under GET. -/
def passthroughState : RouterState :=
  { routes := [("GET", [⟨matchSlashA, constApp "A", []⟩])], defaultApp := defaultApp }

theorem regexp_pattern_passthrough_check :
    getBucket passthroughState.routes "GET" = some [⟨matchSlashA, constApp "A", []⟩] ∧
    routerSelect passthroughState { method := "GET", pathInfo := "/a", route := none } =
      (constApp "A",
       { method := "GET", pathInfo := "/a", route := some ⟨["/a"], []⟩ }) ∧
    (∀ name, RouteData.getNamed ⟨["/a"], []⟩ name = none) ∧
    (∀ name v, RouteData.setNamed ⟨["/a"], []⟩ name v = ⟨["/a"], []⟩) :=
  regexp_pattern_passthrough matchSlashA (constApp "A") "GET"
    { method := "GET", pathInfo := "/a", route := none } ["/a"]
    passthroughState (by decide) rfl rfl rfl

/-! ### More helpers: single-route tables and accessor reduction -/

theorem tryRoutes_any_single (rt : Route) (d : App) (method path : String)
    (caps : List String) (h : rt.pattern.exec path = some caps) :
    tryRoutes (routesToTry { routes := [("ANY", [rt])], defaultApp := d } method)
      path = some (rt, caps) := by
  unfold routesToTry
  by_cases hany : method = "ANY"
  · rw [hany]
    exact tryRoutes_cons_match rt _ _ _ h
  · have h1 : (getBucket [("ANY", [rt])] method).getD [] = [] := by
      unfold getBucket
      rw [if_neg fun hh => hany hh.symm]
      rfl
    rw [h1]
    exact tryRoutes_cons_match rt _ _ _ h

theorem getNamed_eq (caps : List String) (accs : List (String × Nat))
    (name : String) (i : Nat) (hidx : accessorIndex accs name = some i) :
    RouteData.getNamed ⟨caps, accs⟩ name = caps.get? (i + 1) := by
  simp [RouteData.getNamed, hidx]

theorem setNamed_eq (caps : List String) (accs : List (String × Nat))
    (name : String) (i : Nat) (v : String)
    (hidx : accessorIndex accs name = some i) :
    RouteData.setNamed ⟨caps, accs⟩ name v = ⟨caps.set (i + 1) v, accs⟩ := by
  simp [RouteData.setNamed, hidx]

/-! ### C6 -/

/-- C6: the GET convenience registrar appends the same route to both the
GET and HEAD buckets, so a route registered through it is also reachable by
a HEAD request to the same path; and the transmitted response to that HEAD
request carries no body even when the handler's response content is
non-empty. -/
theorem get_registrar_covers_head :
    (∀ (s : RouterState) (m : Matcher) (a : App) (s2 : RouterState),
        routerGet s (.regexp m) a = .ok s2 →
        getBucket s2.routes "GET" =
          some ((getBucket s.routes "GET").getD [] ++ [⟨m, a, []⟩]) ∧
        getBucket s2.routes "HEAD" =
          some ((getBucket s.routes "HEAD").getD [] ++ [⟨m, a, []⟩])) ∧
    (∀ (m : Matcher) (a : App) (req : Request) (caps : List String)
        (resp : Response) (s2 : RouterState),
        req.method = "HEAD" →
        routerGet (makeRouter none) (.regexp m) a = .ok s2 →
        m.exec req.pathInfo = some caps →
        a { req with route := some ⟨caps, []⟩ } = .ok resp →
        resp.content ≠ "" →
        routerSelect s2 req = (a, { req with route := some ⟨caps, []⟩ }) ∧
        (bindAppToNodeServer (router s2) req).body = "") := by
  constructor
  · intro s m a s2 hok
    have hroutes : s2.routes =
        pushBucket (pushBucket s.routes "GET" ⟨m, a, []⟩) "HEAD" ⟨m, a, []⟩ := by
      rw [← Except.ok.inj hok]
      rfl
    constructor
    · rw [hroutes,
        getBucket_pushBucket_ne _ _ _ _ (by decide : ("GET" : String) ≠ "HEAD"),
        getBucket_pushBucket_self]
    · rw [hroutes, getBucket_pushBucket_self,
        getBucket_pushBucket_ne _ _ _ _ (by decide : ("HEAD" : String) ≠ "GET")]
  · intro m a req caps resp s2 hmeth hok hm happ hne
    have hroutes : s2.routes =
        [("GET", [⟨m, a, []⟩]), ("HEAD", [⟨m, a, []⟩])] := by
      rw [← Except.ok.inj hok]
      rfl
    have hbt : routesToTry s2 "HEAD" = [⟨m, a, []⟩] := by
      unfold routesToTry
      rw [hroutes]
      rfl
    have htry : tryRoutes (routesToTry s2 req.method) req.pathInfo =
        some (⟨m, a, []⟩, caps) := by
      rw [hmeth, hbt]
      exact tryRoutes_cons_match ⟨m, a, []⟩ _ _ _ hm
    have hsel : routerSelect s2 req = (a, { req with route := some ⟨caps, []⟩ }) := by
      simp only [routerSelect, htry]
    refine ⟨hsel, ?_⟩
    have hrun : router s2 req = .ok resp := by
      show (routerSelect s2 req).1 (routerSelect s2 req).2 = .ok resp
      rw [hsel]
      exact happ
    unfold bindAppToNodeServer
    rw [hrun, hmeth]
    have hbody : (transmit "HEAD" resp).body =
        if ("HEAD" : String) = "HEAD" ∨ statusHasContent resp.status = false then ""
        else resp.content := rfl
    rw [hbody, if_pos (Or.inl rfl)]

/-- The route table built by the GET registrar in the C6 scenario. -/
def getHeadState : RouterState :=
  { routes := [("GET", [⟨matchSlashA, constApp "hello", []⟩]),
               ("HEAD", [⟨matchSlashA, constApp "hello", []⟩])]
    defaultApp := defaultApp }

theorem get_registrar_covers_head_check :
    routerSelect getHeadState { method := "HEAD", pathInfo := "/a", route := none } =
      (constApp "hello",
       { method := "HEAD", pathInfo := "/a", route := some ⟨["/a"], []⟩ }) ∧
    (bindAppToNodeServer (router getHeadState)
      { method := "HEAD", pathInfo := "/a", route := none }).body = "" :=
  get_registrar_covers_head.2 matchSlashA (constApp "hello")
    { method := "HEAD", pathInfo := "/a", route := none } ["/a"]
    { status := 200, headers := [], content := "hello" } getHeadState
    rfl rfl rfl rfl (by decide)

/-! ### C1 -/

/-- C1: dispatch walks the bucket for the request's method first and the
wildcard bucket second, each in registration order, and delegates to the
first route whose matcher succeeds: with a matching wildcard route
registered before three method-specific routes R1, R2, R3 of which R1 and
R2 both match the path, dispatch selects R1 — registration order and
method-specific-before-wildcard are the only tie-breakers, never pattern
specificity. -/
theorem dispatch_first_registered_wins
    (M : String) (m0 m1 m2 m3 : Matcher) (a0 a1 a2 a3 : App)
    (p : String) (c1 : List String) (s1 s2 s3 s4 : RouterState)
    (hup : toUpperCase M = M) (hany : M ≠ "ANY")
    (hr0 : routerRoute (makeRouter none) (.regexp m0) a0 .omitted = .ok s1)
    (hr1 : routerRoute s1 (.regexp m1) a1 (.one M) = .ok s2)
    (hr2 : routerRoute s2 (.regexp m2) a2 (.one M) = .ok s3)
    (hr3 : routerRoute s3 (.regexp m3) a3 (.one M) = .ok s4)
    (h0 : (m0.exec p).isSome) (h1 : m1.exec p = some c1)
    (h2 : (m2.exec p).isSome) :
    routerSelect s4 { method := M, pathInfo := p, route := none } =
      (a1, { method := M, pathInfo := p, route := some ⟨c1, []⟩ }) := by
  have hne : ("ANY" : String) ≠ M := fun h => hany h.symm
  have hA : toUpperCase "ANY" = "ANY" := by decide
  have hs4 : s4.routes = [("ANY", [⟨m0, a0, []⟩]),
      (M, [⟨m1, a1, []⟩, ⟨m2, a2, []⟩, ⟨m3, a3, []⟩])] := by
    rw [← Except.ok.inj hr3, ← Except.ok.inj hr2, ← Except.ok.inj hr1,
      ← Except.ok.inj hr0]
    simp [makeRouter, normalizeMethods, pushBucket, hup, hA, hne,
      accessorsOfKeys, accessorsFrom]
  have hbt : routesToTry s4 M =
      [⟨m1, a1, []⟩, ⟨m2, a2, []⟩, ⟨m3, a3, []⟩, ⟨m0, a0, []⟩] := by
    unfold routesToTry
    rw [hs4]
    simp [getBucket, hne]
  have htry : tryRoutes (routesToTry s4 M) p = some (⟨m1, a1, []⟩, c1) := by
    rw [hbt]
    exact tryRoutes_cons_match ⟨m1, a1, []⟩ _ _ _ h1
  simp only [routerSelect, htry]

/-- The router state of the C1 scenario after all four registrations: a
matching wildcard route registered first, then three GET routes on the
same path. -/
def orderState : RouterState :=
  { routes := [("ANY", [⟨matchSlashA, constApp "zero", []⟩]),
               ("GET", [⟨matchSlashA, constApp "one", []⟩,
                        ⟨matchSlashA, constApp "two", []⟩,
                        ⟨matchNothing, constApp "three", []⟩])]
    defaultApp := defaultApp }

/-- The intermediate state after registering only the wildcard route. -/
def orderState1 : RouterState :=
  { routes := [("ANY", [⟨matchSlashA, constApp "zero", []⟩])]
    defaultApp := defaultApp }

/-- The intermediate state after additionally registering R1. -/
def orderState2 : RouterState :=
  { routes := [("ANY", [⟨matchSlashA, constApp "zero", []⟩]),
               ("GET", [⟨matchSlashA, constApp "one", []⟩])]
    defaultApp := defaultApp }

/-- The intermediate state after additionally registering R2. -/
def orderState3 : RouterState :=
  { routes := [("ANY", [⟨matchSlashA, constApp "zero", []⟩]),
               ("GET", [⟨matchSlashA, constApp "one", []⟩,
                        ⟨matchSlashA, constApp "two", []⟩])]
    defaultApp := defaultApp }

theorem dispatch_first_registered_wins_check :
    routerSelect orderState { method := "GET", pathInfo := "/a", route := none } =
      (constApp "one",
       { method := "GET", pathInfo := "/a", route := some ⟨["/a"], []⟩ }) :=
  dispatch_first_registered_wins "GET" matchSlashA matchSlashA matchSlashA
    matchNothing (constApp "zero") (constApp "one") (constApp "two")
    (constApp "three") "/a" ["/a"] orderState1 orderState2 orderState3 orderState
    (by decide) (by decide) rfl rfl rfl rfl rfl rfl rfl

/-! ### C2 -/

/-- C2: a template compiled with `n` (distinct) named segments yields, on a
successful match, a capture array of length `n + 1` with the whole match at
index 0, and dispatch attaches exactly that array with its accessors to
`request.route`; the accessor of the name at key ordinal `i` aliases array
slot `i + 1`: reading it returns the value at that slot, and writing
through it updates the very slot read by the numeric index. -/
theorem template_match_accessor_aliasing
    (t : String) (a : App) (req : Request) (caps : List String)
    (s2 : RouterState)
    (hnd : (compileRoute t).2.Nodup)
    (hreg : routerRoute (makeRouter none) (.str t) a .omitted = .ok s2)
    (hm : (compileRoute t).1.exec req.pathInfo = some caps) :
    routerSelect s2 req =
      (a, { req with route := some ⟨caps, accessorsOfKeys (compileRoute t).2⟩ }) ∧
    caps.length = (compileRoute t).2.length + 1 ∧
    caps.head? = some req.pathInfo ∧
    (∀ (i : Nat) (h : i < (compileRoute t).2.length) (v : String),
      RouteData.getNamed ⟨caps, accessorsOfKeys (compileRoute t).2⟩
          ((compileRoute t).2.get ⟨i, h⟩) = caps.get? (i + 1) ∧
      (RouteData.setNamed ⟨caps, accessorsOfKeys (compileRoute t).2⟩
          ((compileRoute t).2.get ⟨i, h⟩) v).captures.get? (i + 1) = some v) := by
  have hm2 : (matchSegs (parseTemplate t) (splitSlash req.pathInfo)).map
      (fun caps2 => req.pathInfo :: caps2) = some caps := hm
  obtain ⟨caps2, hms, hcaps⟩ : ∃ caps2,
      matchSegs (parseTemplate t) (splitSlash req.pathInfo) = some caps2 ∧
      req.pathInfo :: caps2 = caps := by
    cases hx : matchSegs (parseTemplate t) (splitSlash req.pathInfo) with
    | none => rw [hx] at hm2; exact absurd hm2 (by simp)
    | some c2 => rw [hx] at hm2; exact ⟨c2, rfl, by simpa using hm2⟩
  subst hcaps
  have hlen2 : caps2.length = (compileRoute t).2.length :=
    matchSegs_length (parseTemplate t) _ _ hms
  have hroutes : s2.routes = [("ANY",
      [⟨(compileRoute t).1, a, accessorsOfKeys (compileRoute t).2⟩])] := by
    rw [← Except.ok.inj hreg]
    rfl
  refine ⟨?_, by simp [hlen2], rfl, ?_⟩
  · have hs2 : s2 = RouterState.mk
        [("ANY", [⟨(compileRoute t).1, a, accessorsOfKeys (compileRoute t).2⟩])]
        defaultApp := by
      rw [← Except.ok.inj hreg]
      rfl
    subst hs2
    have htry := tryRoutes_any_single
      ⟨(compileRoute t).1, a, accessorsOfKeys (compileRoute t).2⟩
      defaultApp req.method req.pathInfo (req.pathInfo :: caps2) hm
    simp only [routerSelect, htry]
  · intro i h v
    have hidx : accessorIndex (accessorsOfKeys (compileRoute t).2)
        ((compileRoute t).2.get ⟨i, h⟩) = some i := by
      have := accessorIndex_of_get (compileRoute t).2 hnd 0 i h
      simpa using this
    refine ⟨getNamed_eq _ _ _ _ hidx, ?_⟩
    rw [setNamed_eq _ _ _ _ _ hidx]
    exact get?_set_self _ (i + 1) v
      (by simp only [List.length_cons, hlen2]; omega)

/-- The route table of the C2 scenario: the compiled `/users/:id` template
registered on an otherwise empty router. -/
def compiledState : RouterState :=
  { routes := [("ANY", [⟨(compileRoute "/users/:id").1, constApp "user",
      accessorsOfKeys (compileRoute "/users/:id").2⟩])]
    defaultApp := defaultApp }

theorem template_match_accessor_aliasing_check :
    routerSelect compiledState
        { method := "GET", pathInfo := "/users/42", route := none } =
      (constApp "user",
       { method := "GET", pathInfo := "/users/42",
         route := some ⟨["/users/42", "42"],
           accessorsOfKeys (compileRoute "/users/:id").2⟩ }) ∧
    (["/users/42", "42"] : List String).length =
      (compileRoute "/users/:id").2.length + 1 :=
  ⟨(template_match_accessor_aliasing "/users/:id" (constApp "user")
      { method := "GET", pathInfo := "/users/42", route := none }
      ["/users/42", "42"] compiledState (by decide) rfl (by decide)).1,
   (template_match_accessor_aliasing "/users/:id" (constApp "user")
      { method := "GET", pathInfo := "/users/42", route := none }
      ["/users/42", "42"] compiledState (by decide) rfl (by decide)).2.1⟩
